import Mathlib

/-!
Shallow embedding of the staticauth / gatekeeper authentication core:
the forward-auth decision endpoint (`validate`), the session service,
the signed-cookie token signer, the OTP service, the passkey ceremony
service and the sign-out endpoint, together with theorems settling the
spec's claims about them.

Conventions of the embedding:
* database tables become Lean lists of records; a SQLAlchemy
  `scalar_one_or_none` over a unique-keyed `select` becomes `List.find?`;
* UUIDs become `Nat` identifiers; timestamps become `Nat` instants and
  the clock `now` is passed explicitly;
* Python truthiness of optional strings (`if access.role:`) is embedded
  by `pyTruthy` and `pyStrTruthy`, which treat `None` and `""` as falsy;
* the HMAC-SHA256 / base64url pipeline of `utils/security.py` lives in
  the Python standard library, so the keyed tag is abstracted as a
  function parameter `sigOf : String → String`; the properties of it the
  code relies on — base64url output contains no `.` separator and is
  ASCII-only — appear as explicit hypotheses; `hmac.compare_digest` is
  embedded with its documented `TypeError` on non-ASCII `str` input, and
  functions that let that exception propagate return `Except`;
* random generation (session tokens, OTP codes) and the email transport
  outcome are inputs chosen by the caller of the embedded operation.
-/

namespace StaticAuth

/-- User lifecycle status, from `gatekeeper/models/user.py` (`UserStatus`). -/
inductive UserStatus
  | pending
  | approved
  | rejected
deriving DecidableEq, Repr

/-- A user record, from `gatekeeper/models/user.py` (`User`).
Timestamp and relationship fields irrelevant to the claims are omitted. -/
structure User where
  id : Nat
  email : String
  name : Option String
  status : UserStatus
  is_admin : Bool
  is_seeded : Bool
deriving DecidableEq, Repr

/-- An application record, from `gatekeeper/models/app.py` (`App`).
Only the fields consulted by the decision endpoint are kept. -/
structure App where
  id : Nat
  slug : String
deriving DecidableEq, Repr

/-- A per-app grant row, from `gatekeeper/models/app.py` (`UserAppAccess`). -/
structure UserAppAccess where
  userId : Nat
  appId : Nat
  role : Option String
deriving DecidableEq, Repr

/-- A session record, from `gatekeeper/models/session.py`. -/
structure Session where
  userId : Nat
  token : String
  expiresAt : Nat
deriving DecidableEq, Repr

/-- The configured default policy for unregistered apps, from
`gatekeeper/config.py` (`default_app_access : Literal["allow", "deny"]`). -/
inductive DefaultPolicy
  | allow
  | deny
deriving DecidableEq, Repr

/-- Outcome of the forward-auth endpoint: HTTP 401, HTTP 200 with the
`X-Auth-User`, optional `X-Auth-Name` and optional `X-Auth-Role` headers,
or HTTP 403. -/
inductive Decision
  | unauthorized
  | ok (userHeader : String) (nameHeader : Option String) (roleHeader : Option String)
  | forbidden
deriving DecidableEq, Repr

/-- Python truthiness on an optional string header value: `None` and the
empty string are falsy, so neither produces a header. -/
def pyTruthy : Option String → Option String
  | none => none
  | some s => if s = "" then none else some s

/-- Python truthiness of an optional string, as a Boolean test. -/
def pyStrTruthy : Option String → Bool
  | none => false
  | some s => decide (s ≠ "")

/-- Python `a or b` on two optional strings (`credential.get("rawId") or
credential.get("id")` in `PasskeyService.verify_authentication`). -/
def pyOr (a b : Option String) : Option String :=
  if pyStrTruthy a then a else b

/-- Python `str.lower()` as applied to email addresses throughout the
code base, character by character. -/
def pyLower (s : String) : String := String.mk (s.data.map Char.toLower)

/-- App lookup by slug: `select(App).where(App.slug == x_gk_app)` with
`scalar_one_or_none` (the slug column is unique). -/
def findApp (apps : List App) (slug : String) : Option App :=
  apps.find? (fun a => decide (a.slug = slug))

/-- Grant lookup: `select(UserAppAccess).where(user_id == .., app_id == ..)`
with `scalar_one_or_none` (the pair is the primary key). -/
def findAccess (grants : List UserAppAccess) (userId appId : Nat) : Option UserAppAccess :=
  grants.find? (fun g => decide (g.userId = userId ∧ g.appId = appId))

/-- The forward-auth decision endpoint `validate` from
`gatekeeper/api/v1/auth.py`. `currentUser` is the result of the
`CurrentUserOptional` dependency; `xGkApp` is the `X-GK-App` header
(`if not x_gk_app` treats a missing and an empty header alike). -/
def validate (policy : DefaultPolicy) (apps : List App) (grants : List UserAppAccess)
    (currentUser : Option User) (xGkApp : Option String) : Decision :=
  match currentUser with
  | none => Decision.unauthorized
  | some u =>
    let nameHdr := pyTruthy u.name
    match xGkApp with
    | none => Decision.ok u.email nameHdr none
    | some slug =>
      if slug = "" then Decision.ok u.email nameHdr none
      else if u.is_admin then Decision.ok u.email nameHdr (some "admin")
      else
        match findApp apps slug with
        | none =>
          match policy with
          | DefaultPolicy.deny => Decision.forbidden
          | DefaultPolicy.allow => Decision.ok u.email nameHdr none
        | some app =>
          match findAccess grants u.id app.id with
          | none => Decision.forbidden
          | some g => Decision.ok u.email nameHdr (pyTruthy g.role)

/-- Split a character list at its last `'.'`, returning the parts before
and after it, or `none` when no `'.'` occurs. This is Python's
`signed_token.rsplit(".", 1)` combined with the `"." not in signed_token`
guard of `verify_signed_token`. -/
def splitAtLastDot : List Char → Option (List Char × List Char)
  | [] => none
  | c :: cs =>
    match splitAtLastDot cs with
    | some (l, r) => some (c :: l, r)
    | none => if c = '.' then some ([], cs) else none

/-- `create_signed_token` from `staticauth/utils/security.py`: append a
`.`-separated keyed tag. `sigOf` stands for
`base64url(hmac_sha256(secret, token)).rstrip("=")`, a standard-library
pipeline whose output alphabet contains no `.`. -/
def create_signed_token (sigOf : String → String) (token : String) : String :=
  token ++ "." ++ sigOf token

/-- A string all of whose characters are ASCII (code point below 128),
the precondition CPython's `hmac.compare_digest` imposes on `str`
arguments. -/
def isAsciiStr (s : String) : Bool :=
  s.data.all (fun c => decide (c.toNat < 128))

/-- CPython's `hmac.compare_digest` on `str` arguments: a constant-time
equality verdict when both strings are ASCII-only, and a `TypeError`
("comparing strings with non-ASCII characters is not supported")
otherwise, embedded as `Except.error`. -/
def compare_digest (a b : String) : Except String Bool :=
  if isAsciiStr a = true ∧ isAsciiStr b = true then Except.ok (decide (a = b))
  else Except.error "TypeError"

/-- `verify_signed_token` from `staticauth/utils/security.py`: return
`none` when no separator is present, split at the last `.`, recompute
the tag and compare with `hmac.compare_digest`. Returns the raw token on
success and `none` on a mismatch; a `TypeError` raised by
`compare_digest` — the provided tag part may contain non-ASCII
characters, the recomputed tag is base64url and never does — propagates
to the caller, embedded as `Except.error`. -/
def verify_signed_token (sigOf : String → String) (signed : String) :
    Except String (Option String) :=
  match splitAtLastDot signed.data with
  | none => Except.ok none
  | some (l, r) =>
    let token := String.mk l
    let provided := String.mk r
    match compare_digest provided (sigOf token) with
    | Except.error e => Except.error e
    | Except.ok true => Except.ok (some token)
    | Except.ok false => Except.ok none

namespace SessionService

/-- `SessionService.get_by_token` from `gatekeeper/services/session.py`:
`select(Session).where(token == .., expires_at > utcnow())` with
`scalar_one_or_none` (the token column is unique). -/
def get_by_token (sessions : List Session) (now : Nat) (token : String) : Option Session :=
  sessions.find? (fun s => decide (s.token = token ∧ now < s.expiresAt))

/-- `SessionService.get_user_by_token` from
`gatekeeper/services/session.py`: resolve the session, then look up the
owning user by id. No status check happens here. -/
def get_user_by_token (users : List User) (sessions : List Session) (now : Nat)
    (token : String) : Option User :=
  match get_by_token sessions now token with
  | none => none
  | some s => users.find? (fun u => decide (u.id = s.userId))

/-- `SessionService.delete` from `gatekeeper/services/session.py`: bulk
`delete(Session).where(token == ..)`; the Boolean is `rowcount > 0`. -/
def delete (sessions : List Session) (token : String) : List Session × Bool :=
  let remaining := sessions.filter (fun s => decide (s.token ≠ token))
  (remaining, decide (remaining.length < sessions.length))

end SessionService

/-- The tail of `get_current_user_optional` from `gatekeeper/api/deps.py`
after cookie-signature verification: resolve the user by token and
return `none` unless the user's status is approved. -/
def resolveSessionUser (users : List User) (sessions : List Session) (now : Nat)
    (token : String) : Option User :=
  match SessionService.get_user_by_token users sessions now token with
  | none => none
  | some u => if u.status = UserStatus.approved then some u else none

/-- `get_current_user_optional` from `gatekeeper/api/deps.py`: read the
`session` cookie, verify its signature, resolve the session user and
filter on approved status; a missing or invalid cookie yields `none`,
and a `TypeError` escaping `verify_signed_token` propagates (the
dependency has no handler), embedded as `Except.error`. -/
def get_current_user_optional (sigOf : String → String) (users : List User)
    (sessions : List Session) (now : Nat) (cookie : Option String) :
    Except String (Option User) :=
  match cookie with
  | none => Except.ok none
  | some c =>
    if c = "" then Except.ok none
    else
      match verify_signed_token sigOf c with
      | Except.error e => Except.error e
      | Except.ok none => Except.ok none
      | Except.ok (some token) => Except.ok (resolveSessionUser users sessions now token)

/-- The `signout` endpoint from `gatekeeper/api/v1/auth.py`. Its
`session : str | None = None` parameter carries no `Cookie()` marker, so
FastAPI binds it to the `session` query parameter of the request, not to
the session cookie; `sessionParam` is that query parameter. When present
and truthy, its signature is verified and the matching session record
deleted; otherwise the store is untouched (the endpoint then only clears
the client cookie). A `TypeError` escaping `verify_signed_token`
propagates (the endpoint has no handler), embedded as `Except.error`. -/
def signout (sigOf : String → String) (sessions : List Session)
    (sessionParam : Option String) : Except String (List Session) :=
  match sessionParam with
  | none => Except.ok sessions
  | some s =>
    if s = "" then Except.ok sessions
    else
      match verify_signed_token sigOf s with
      | Except.error e => Except.error e
      | Except.ok none => Except.ok sessions
      | Except.ok (some token) =>
        if token = "" then Except.ok sessions
        else Except.ok (SessionService.delete sessions token).fst

/-- OTP purpose tag, from `staticauth/models/otp.py` (`OTPPurpose`). -/
inductive OTPPurpose
  | signin
  | register
deriving DecidableEq, Repr

/-- An OTP record, from `staticauth/models/otp.py` (`OTP`). -/
structure OTP where
  id : Nat
  email : String
  code : String
  purpose : OTPPurpose
  expiresAt : Nat
  used : Bool
  createdAt : Nat
deriving DecidableEq, Repr

/-- `EmailService.is_suppressed` from `gatekeeper/services/email.py`
with a database session present: membership of the lowercased address in
the suppression table. -/
def is_suppressed (suppressed : List String) (email : String) : Bool :=
  decide ((pyLower email) ∈ suppressed)

/-- `EmailService._send_with_suppression_check` from
`gatekeeper/services/email.py`: a suppressed address short-circuits to
`false`; otherwise the transport provider's outcome (an external
collaborator, here the parameter `providerResult`) is returned. -/
def send_with_suppression_check (suppressed : List String) (providerResult : Bool)
    (toEmail : String) : Bool :=
  if is_suppressed suppressed toEmail then false else providerResult

namespace OTPService

/-- The row predicate of the `verify` select in
`staticauth/services/otp.py`: matching email, code and purpose, unused,
and `expires_at > now`. -/
def otpMatches (now : Nat) (email code : String) (purpose : OTPPurpose) (o : OTP) : Bool :=
  decide (o.email = email ∧ o.code = code ∧ o.purpose = purpose ∧
    o.used = false ∧ now < o.expiresAt)

/-- `order_by(created_at.desc()).limit(1)`: a row of maximal
`created_at` among the matches, or `none` when there is no match. -/
def selectLatest : List OTP → Option OTP
  | [] => none
  | o :: rest =>
    match selectLatest rest with
    | none => some o
    | some b => if b.createdAt < o.createdAt then some o else some b

/-- `OTPService.verify` from `staticauth/services/otp.py`: lowercase the
email, select the most recently created matching row; on a match flip
its `used` flag and succeed, otherwise fail leaving the store unchanged. -/
def verify (st : List OTP) (now : Nat) (email code : String) (purpose : OTPPurpose) :
    Bool × List OTP :=
  let e := (pyLower email)
  match selectLatest (st.filter (otpMatches now e code purpose)) with
  | none => (false, st)
  | some o => (true, st.map (fun x => if x.id = o.id then { x with used := true } else x))

/-- `OTPService._invalidate_previous` from `staticauth/services/otp.py`:
mark used every unused OTP stored under exactly this (email, purpose). -/
def invalidate_previous (st : List OTP) (email : String) (purpose : OTPPurpose) : List OTP :=
  st.map (fun o =>
    if o.email = email ∧ o.purpose = purpose ∧ o.used = false
    then { o with used := true } else o)

/-- `OTPService.create_and_send` from `staticauth/services/otp.py`:
lowercase the email, invalidate all previous unused codes for the
(email, purpose) pair, insert a fresh code expiring at `now + ttl`, then
deliver it through the email service and return the delivery outcome.
The generated code and row id are inputs (`secrets.choice` digits), as
is the transport outcome `providerResult`; nothing is rolled back when
delivery fails. -/
def create_and_send (st : List OTP) (now ttl newId : Nat) (code : String)
    (suppressed : List String) (providerResult : Bool) (email : String)
    (purpose : OTPPurpose) : Bool × List OTP :=
  let e := (pyLower email)
  let st1 := invalidate_previous st e purpose
  let newOtp : OTP := ⟨newId, e, code, purpose, now + ttl, false, now⟩
  (send_with_suppression_check suppressed providerResult e, st1 ++ [newOtp])

end OTPService

/-- An OTP row counted by the at-most-one-valid invariant, ignoring
expiry: stored under the pair (e, p) and not yet used. -/
def pairUnused (e : String) (p : OTPPurpose) (o : OTP) : Bool :=
  decide (o.email = e ∧ o.purpose = p ∧ o.used = false)

/-- A *valid* OTP for the pair (e, p) at instant `now`: unused and
unexpired, as in the spec's at-most-one-valid invariant. -/
def validForPair (now : Nat) (e : String) (p : OTPPurpose) (o : OTP) : Bool :=
  decide (o.email = e ∧ o.purpose = p ∧ o.used = false ∧ now < o.expiresAt)

/-- A stored passkey credential, from `gatekeeper/models/passkey.py`
(`PasskeyCredential`). The binary credential id and COSE public key are
opaque handles, embedded as strings. -/
structure PasskeyCredential where
  id : Nat
  userId : Nat
  credentialId : String
  publicKey : String
  sign_count : Nat
  name : String
deriving DecidableEq, Repr

/-- A client authentication assertion as consumed by
`PasskeyService.verify_authentication`: the `rawId` / `id` fields
(post base64url decoding, as opaque handles), the reported signature
counter, and one Boolean abstracting whether the cryptographic checks
(challenge, relying-party id, origin, signature against the stored
public key) succeed. -/
structure AuthAssertion where
  rawId : Option String
  idField : Option String
  sign_count : Nat
  signatureValid : Bool
deriving DecidableEq, Repr

namespace PasskeyService

/-- Modelled from the spec: the third-party `webauthn` library function
`verify_authentication_response` called by
`gatekeeper/services/passkey.py` is not part of this repository's
sources. Per the spec (section 4.4), verification succeeds only when the
cryptographic checks pass (abstracted as `signatureValid`) and the
assertion's reported signature counter is strictly greater than the
stored counter, or both counters are zero (authenticators without
counters); otherwise it raises, which the caller's `except` turns into
failure — embedded as `none`. On success it reports the new sign count. -/
def verify_authentication_response (storedCount : Nat) (a : AuthAssertion) : Option Nat :=
  if a.signatureValid = true ∧
      (storedCount < a.sign_count ∨ (a.sign_count = 0 ∧ storedCount = 0))
  then some a.sign_count
  else none

/-- `PasskeyService.verify_authentication` from
`gatekeeper/services/passkey.py`: locate the credential by the
assertion's `rawId or id` handle, run the library verification against
the stored public key and counter, and only on success store the new
counter and look up the owning user. Every failure path returns `none`
with the credential store unchanged. -/
def verify_authentication (creds : List PasskeyCredential) (users : List User)
    (a : AuthAssertion) : Option User × List PasskeyCredential :=
  match pyOr a.rawId a.idField with
  | none => (none, creds)
  | some rid =>
    if rid = "" then (none, creds)
    else
      match creds.find? (fun c => decide (c.credentialId = rid)) with
      | none => (none, creds)
      | some pk =>
        match verify_authentication_response pk.sign_count a with
        | none => (none, creds)
        | some n =>
          (users.find? (fun u => decide (u.id = pk.userId)),
           creds.map (fun c => if c.id = pk.id then { c with sign_count := n } else c))

end PasskeyService

/-- A fixed dot-free keyed-tag function used to evaluate the signed-token
machinery on concrete inputs. -/
def macConst (_ : String) : String := "mac"

/-- A pending (not approved) user owning a live session, for exercising
the session-resolution paths. -/
def pendingUser : User := ⟨1, "p@x.com", none, UserStatus.pending, false, false⟩

/-- A live session record owned by `pendingUser`. -/
def pendingSession : Session := ⟨1, "tok", 10⟩

/-- An approved non-admin user for the sign-out scenario. -/
def aliceUser : User := ⟨1, "a@x.com", none, UserStatus.approved, false, false⟩

/-- A live session record owned by `aliceUser`. -/
def aliceSession : Session := ⟨1, "tok9", 10⟩

/-- An approved user owning the passkey credential `cexCred`. -/
def cexUser : User := ⟨7, "c@x.com", none, UserStatus.approved, false, false⟩

/-- A stored passkey credential whose signature counter is zero. -/
def cexCred : PasskeyCredential := ⟨1, 7, "cred1", "pk", 0, "key"⟩

/-- A valid assertion for `cexCred` reporting counter zero. -/
def cexAssertion : AuthAssertion := ⟨some "cred1", none, 0, true⟩

/-- A stored passkey credential whose signature counter is five. -/
def cexCred2 : PasskeyCredential := ⟨1, 7, "cred1", "pk", 5, "key"⟩

/-- A valid assertion for `cexCred2` replaying counter five. -/
def cexAssertion2 : AuthAssertion := ⟨some "cred1", none, 5, true⟩

end StaticAuth

namespace StaticAuth

/-! ## Helper lemmas -/

/-- Two distinct members force a list length of at least two. -/
theorem two_le_length_of_two_mem {α : Type} {a b : α} {l : List α}
    (ha : a ∈ l) (hb : b ∈ l) (hne : a ≠ b) : 2 ≤ l.length := by
  induction l with
  | nil => cases ha
  | cons c t ih =>
    rcases List.mem_cons.mp ha with rfl | hat
    · rcases List.mem_cons.mp hb with rfl | hbt
      · exact absurd rfl hne
      · have : 1 ≤ t.length := List.length_pos.mpr (List.ne_nil_of_mem hbt)
        simpa [List.length_cons] using Nat.succ_le_succ this
    · rcases List.mem_cons.mp hb with rfl | hbt
      · have : 1 ≤ t.length := List.length_pos.mpr (List.ne_nil_of_mem hat)
        simpa [List.length_cons] using Nat.succ_le_succ this
      · have := ih hat hbt
        simpa [List.length_cons] using Nat.le_succ_of_le this

/-- A dot-free character list has no split point. -/
theorem splitAtLastDot_of_not_mem (cs : List Char) (h : '.' ∉ cs) :
    splitAtLastDot cs = none := by
  induction cs with
  | nil => rfl
  | cons c cs ih =>
    have hc : ¬ c = '.' := fun e => h (by simp [e])
    have hcs : '.' ∉ cs := fun hm => h (List.mem_cons_of_mem _ hm)
    simp [splitAtLastDot, ih hcs, hc]

/-- Splitting at the last dot of `l ++ '.' :: r` recovers `(l, r)` when
`r` is dot-free. -/
theorem splitAtLastDot_append (l r : List Char) (h : '.' ∉ r) :
    splitAtLastDot (l ++ '.' :: r) = some (l, r) := by
  induction l with
  | nil => simp [splitAtLastDot, splitAtLastDot_of_not_mem r h]
  | cons c l ih => simp [splitAtLastDot, ih]

/-- String concatenation concatenates the underlying character lists. -/
theorem string_data_append (a b : String) : (a ++ b).data = a.data ++ b.data := by
  cases a; cases b; rfl

/-- Rebuilding a string from its character list is the identity. -/
theorem string_mk_data (s : String) : String.mk s.data = s := by
  cases s; rfl

/-- `selectLatest` only returns members of its input. -/
theorem selectLatest_mem {l : List OTP} {o : OTP}
    (h : OTPService.selectLatest l = some o) : o ∈ l := by
  induction l generalizing o with
  | nil => simp [OTPService.selectLatest] at h
  | cons x rest ih =>
    simp only [OTPService.selectLatest] at h
    cases hr : OTPService.selectLatest rest with
    | none =>
      rw [hr] at h
      simp at h
      simp [h]
    | some b =>
      rw [hr] at h
      by_cases hc : b.createdAt < x.createdAt
      · simp [hc] at h
        simp [h]
      · simp [hc] at h
        exact List.mem_cons_of_mem _ (ih (h ▸ hr))

/-- `selectLatest` returns `none` exactly on the empty list. -/
theorem selectLatest_eq_none_iff (l : List OTP) :
    OTPService.selectLatest l = none ↔ l = [] := by
  cases l with
  | nil => simp [OTPService.selectLatest]
  | cons x rest =>
    simp only [OTPService.selectLatest]
    constructor
    · intro h
      cases hr : OTPService.selectLatest rest with
      | none => rw [hr] at h; simp at h
      | some b => rw [hr] at h; by_cases hc : b.createdAt < x.createdAt <;> simp [hc] at h
    · intro h
      cases h

/-- After `invalidate_previous`, no unused row for the pair remains. -/
theorem invalidate_previous_filter_nil (st : List OTP) (e : String) (p : OTPPurpose) :
    (OTPService.invalidate_previous st e p).filter (pairUnused e p) = [] := by
  rw [List.filter_eq_nil_iff]
  intro y hy
  rcases List.mem_map.mp hy with ⟨x, _, hfx⟩
  by_cases hc : x.email = e ∧ x.purpose = p ∧ x.used = false
  · rw [if_pos hc] at hfx
    subst hfx
    simp [pairUnused]
  · rw [if_neg hc] at hfx
    subst hfx
    simp only [pairUnused, decide_eq_true_eq]
    intro hcontra
    exact hc hcontra

/-- The store written by `create_and_send` holds exactly one unused row
for the lowercased (email, purpose) pair: the freshly inserted code. -/
theorem create_and_send_filter_eq (st : List OTP) (now ttl newId : Nat) (code : String)
    (suppressed : List String) (pr : Bool) (email : String) (p : OTPPurpose) :
    (OTPService.create_and_send st now ttl newId code suppressed pr email p).snd.filter
        (pairUnused (pyLower email) p) =
      [⟨newId, (pyLower email), code, p, now + ttl, false, now⟩] := by
  show ((OTPService.invalidate_previous st (pyLower email) p) ++
      [(⟨newId, (pyLower email), code, p, now + ttl, false, now⟩ : OTP)]).filter
      (pairUnused (pyLower email) p) = _
  rw [List.filter_append, invalidate_previous_filter_nil]
  simp [pairUnused]

/-! ## Claim theorems -/

/-- C1: in the forward-auth decision, an authenticated admin identity
receives ALLOW (HTTP 200) with the fixed role header `admin` for every
nonempty app-slug header value, for every app registry and every grant
table — so slugs with no matching App record are included and the
per-app grant table is never consulted. -/
theorem validate_admin_always_allows (policy : DefaultPolicy) (apps : List App)
    (grants : List UserAppAccess) (u : User) (slug : String)
    (hadmin : u.is_admin = true) (hslug : slug ≠ "") :
    validate policy apps grants (some u) (some slug) =
      Decision.ok u.email (pyTruthy u.name) (some "admin") := by
  simp [validate, hslug, hadmin]

/-- Witness for C1: a concrete admin, a slug absent from an empty app
registry, policy `deny`, empty grant table. -/
theorem validate_admin_always_allows_witness :
    validate DefaultPolicy.deny [] []
        (some ⟨1, "root@x.com", none, UserStatus.approved, true, true⟩) (some "ghost") =
      Decision.ok "root@x.com" (pyTruthy none) (some "admin") :=
  validate_admin_always_allows DefaultPolicy.deny [] []
    ⟨1, "root@x.com", none, UserStatus.approved, true, true⟩ "ghost" rfl (by decide)

/-- C2: for an authenticated non-admin identity and a nonempty slug:
if the slug has no App record the outcome is exactly the default policy
(allow gives HTTP 200 with no role header, deny gives HTTP 403),
whatever the grant table holds; if an App record exists but no grant
exists for the (identity, app) pair the outcome is HTTP 403 under either
policy. -/
theorem validate_nonadmin_default_and_grant (policy : DefaultPolicy) (apps : List App)
    (grants : List UserAppAccess) (u : User) (slug : String)
    (hadmin : u.is_admin = false) (hslug : slug ≠ "") :
    (findApp apps slug = none →
      validate policy apps grants (some u) (some slug) =
        match policy with
        | DefaultPolicy.allow => Decision.ok u.email (pyTruthy u.name) none
        | DefaultPolicy.deny => Decision.forbidden) ∧
    (∀ app, findApp apps slug = some app →
      findAccess grants u.id app.id = none →
      validate policy apps grants (some u) (some slug) = Decision.forbidden) := by
  constructor
  · intro hnone
    cases policy <;> simp [validate, hslug, hadmin, hnone]
  · intro app happ hacc
    simp [validate, hslug, hadmin, happ, hacc]

/-- Witness for C2: a non-admin with a grant on another app, an
unregistered slug under policy `allow`, and a registered app without a
grant. -/
theorem validate_nonadmin_default_and_grant_witness :
    (validate DefaultPolicy.allow [⟨5, "dash"⟩] [⟨2, 5, some "editor"⟩]
        (some ⟨2, "b@x.com", none, UserStatus.approved, false, false⟩) (some "ghost") =
      Decision.ok "b@x.com" (pyTruthy none) none) ∧
    (validate DefaultPolicy.allow [⟨5, "dash"⟩] []
        (some ⟨2, "b@x.com", none, UserStatus.approved, false, false⟩) (some "dash") =
      Decision.forbidden) := by
  constructor
  · exact (validate_nonadmin_default_and_grant DefaultPolicy.allow [⟨5, "dash"⟩]
      [⟨2, 5, some "editor"⟩] ⟨2, "b@x.com", none, UserStatus.approved, false, false⟩
      "ghost" rfl (by decide)).1 (by decide)
  · exact (validate_nonadmin_default_and_grant DefaultPolicy.allow [⟨5, "dash"⟩] []
      ⟨2, "b@x.com", none, UserStatus.approved, false, false⟩
      "dash" rfl (by decide)).2 ⟨5, "dash"⟩ (by decide) (by decide)

/-- C3 counterexample: `get_user_by_token` returns the owning user of a
live session even though that user's status is pending, contradicting
the claim that it returns `none` for a non-approved owner. -/
theorem get_user_by_token_returns_pending_owner :
    SessionService.get_user_by_token [pendingUser] [pendingSession] 0 "tok" =
      some pendingUser ∧ pendingUser.status ≠ UserStatus.approved := by
  constructor
  · decide
  · decide

/-- C3 (amended): `get_user_by_token` fails closed for absent or expired
tokens and missing owners, and otherwise returns exactly the owning
identity of the live session, with no status filtering; the
approved-status check is applied by its caller (`get_current_user_optional`
via `resolveSessionUser`), which maps a non-approved owner to `none`. -/
theorem session_resolution_fails_closed (users : List User) (sessions : List Session)
    (now : Nat) (token : String) :
    ((∀ s ∈ sessions, ¬(s.token = token ∧ now < s.expiresAt)) →
      SessionService.get_user_by_token users sessions now token = none) ∧
    (∀ s, SessionService.get_by_token sessions now token = some s →
      (∀ u ∈ users, u.id ≠ s.userId) →
      SessionService.get_user_by_token users sessions now token = none) ∧
    (∀ u, SessionService.get_user_by_token users sessions now token = some u →
      ∃ s ∈ sessions, s.token = token ∧ now < s.expiresAt ∧ u ∈ users ∧ u.id = s.userId) ∧
    (∀ u, SessionService.get_user_by_token users sessions now token = some u →
      resolveSessionUser users sessions now token =
        if u.status = UserStatus.approved then some u else none) := by
  refine ⟨?_, ?_, ?_, ?_⟩
  · intro h
    have hfind : SessionService.get_by_token sessions now token = none := by
      rw [SessionService.get_by_token, List.find?_eq_none]
      intro s hs
      simpa using h s hs
    rw [SessionService.get_user_by_token, hfind]
  · intro s hs hmiss
    rw [SessionService.get_user_by_token, hs, List.find?_eq_none]
    intro u hu
    simpa using hmiss u hu
  · intro u hu
    rw [SessionService.get_user_by_token] at hu
    cases hsel : SessionService.get_by_token sessions now token with
    | none => rw [hsel] at hu; cases hu
    | some s =>
      rw [hsel] at hu
      have hsmem : s ∈ sessions := List.mem_of_find?_eq_some hsel
      have hspred := List.find?_some hsel
      have humem : u ∈ users := List.mem_of_find?_eq_some hu
      have hupred := List.find?_some hu
      simp only [decide_eq_true_eq] at hspred hupred
      exact ⟨s, hsmem, hspred.1, hspred.2, humem, hupred⟩
  · intro u hu
    rw [resolveSessionUser, hu]

/-- Witness for C3 (amended): with the session expired (`now = 20`,
`expires_at = 10`) resolution yields `none` even though the record is
still stored. -/
theorem session_resolution_fails_closed_witness :
    SessionService.get_user_by_token [pendingUser] [pendingSession] 20 "tok" = none :=
  (session_resolution_fails_closed [pendingUser] [pendingSession] 20 "tok").1 (by decide)

/-- For any keyed-tag function with dot-free, ASCII-only output — true
of base64url — verifying a freshly signed token returns the original
token, and an input without the separator is rejected with `none`. -/
theorem verify_signed_roundtrip_ok (sigOf : String → String) (t s : String)
    (hsig : '.' ∉ (sigOf t).data) (hascii : isAsciiStr (sigOf t) = true) :
    verify_signed_token sigOf (create_signed_token sigOf t) = Except.ok (some t) ∧
    ('.' ∉ s.data → verify_signed_token sigOf s = Except.ok none) := by
  constructor
  · have hdata : (t ++ "." ++ sigOf t).data = t.data ++ '.' :: (sigOf t).data := by
      rw [string_data_append, string_data_append]
      simp
    rw [verify_signed_token, create_signed_token, hdata, splitAtLastDot_append _ _ hsig]
    simp only [string_mk_data]
    rw [compare_digest, if_pos ⟨hascii, hascii⟩]
    simp
  · intro hs
    rw [verify_signed_token, splitAtLastDot_of_not_mem _ hs]

/-- C4 (code bug evaluation): with the concrete ASCII tag function
`macConst`, verifying a signed token inverts signing, and a missing
separator or a wrong ASCII tag is rejected silently with `none`, as the
claim states; but a wrong tag containing a non-ASCII character —
reachable through the session cookie and the `signout` query parameter —
makes `hmac.compare_digest` raise `TypeError`, so `verify_signed_token`
raises instead of returning invalid. -/
theorem verify_signed_token_raises_on_nonascii_tag :
    verify_signed_token macConst (create_signed_token macConst "tok") =
      Except.ok (some "tok") ∧
    verify_signed_token macConst "nodothere" = Except.ok none ∧
    verify_signed_token macConst ("tok" ++ "." ++ "bad") = Except.ok none ∧
    verify_signed_token macConst ("tok" ++ "." ++ "é") = Except.error "TypeError" :=
  ⟨(verify_signed_roundtrip_ok macConst "tok" "nodothere" (by decide) (by decide)).1,
   (verify_signed_roundtrip_ok macConst "tok" "nodothere" (by decide) (by decide)).2
     (by decide),
   rfl, rfl⟩

/-- C5: when the store holds at most one valid OTP for the lowercased
(email, purpose) pair — the invariant `create_and_send` maintains — a
successful `verify` consumes the matched code, and immediately repeating
the same `verify` fails. -/
theorem verify_single_use (st : List OTP) (now : Nat) (email code : String)
    (p : OTPPurpose)
    (hinv : (st.filter (validForPair now (pyLower email) p)).length ≤ 1)
    (hsucc : (OTPService.verify st now email code p).fst = true) :
    (OTPService.verify (OTPService.verify st now email code p).snd now email code p).fst =
      false := by
  cases hsel : OTPService.selectLatest
      (st.filter (OTPService.otpMatches now (pyLower email) code p)) with
  | none =>
    rw [OTPService.verify] at hsucc
    simp only [hsel] at hsucc
    cases hsucc
  | some o =>
    have homem : o ∈ st.filter (OTPService.otpMatches now (pyLower email) code p) :=
      selectLatest_mem hsel
    have hosrc : o ∈ st := (List.mem_filter.mp homem).1
    have hopred : OTPService.otpMatches now (pyLower email) code p o = true :=
      (List.mem_filter.mp homem).2
    have hsnd : (OTPService.verify st now email code p).snd =
        st.map (fun x => if x.id = o.id then { x with used := true } else x) := by
      rw [OTPService.verify]
      simp only [hsel]
    have hfilter : (st.map (fun x => if x.id = o.id then { x with used := true } else x)).filter
        (OTPService.otpMatches now (pyLower email) code p) = [] := by
      rw [List.filter_eq_nil_iff]
      intro y hy
      rcases List.mem_map.mp hy with ⟨x, hxmem, hfx⟩
      intro hym
      by_cases hid : x.id = o.id
      · rw [if_pos hid] at hfx
        subst hfx
        simp [OTPService.otpMatches] at hym
      · rw [if_neg hid] at hfx
        subst hfx
        have hxf : x ∈ st.filter (validForPair now (pyLower email) p) := by
          refine List.mem_filter.mpr ⟨hxmem, ?_⟩
          simp only [OTPService.otpMatches, decide_eq_true_eq] at hym
          simp only [validForPair, decide_eq_true_eq]
          exact ⟨hym.1, hym.2.2.1, hym.2.2.2.1, hym.2.2.2.2⟩
        have hof : o ∈ st.filter (validForPair now (pyLower email) p) := by
          refine List.mem_filter.mpr ⟨hosrc, ?_⟩
          simp only [OTPService.otpMatches, decide_eq_true_eq] at hopred
          simp only [validForPair, decide_eq_true_eq]
          exact ⟨hopred.1, hopred.2.2.1, hopred.2.2.2.1, hopred.2.2.2.2⟩
        have hne : x ≠ o := fun e => hid (by rw [e])
        have := two_le_length_of_two_mem hxf hof hne
        omega
    rw [hsnd, OTPService.verify]
    simp only [hfilter, OTPService.selectLatest]

/-- Witness for C5: one valid stored code; the first `verify` succeeds
and the repeated `verify` on the updated store fails. -/
theorem verify_single_use_witness :
    (OTPService.verify
        (OTPService.verify [⟨1, "a@x.com", "123456", OTPPurpose.signin, 10, false, 0⟩]
          5 "a@x.com" "123456" OTPPurpose.signin).snd
        5 "a@x.com" "123456" OTPPurpose.signin).fst = false :=
  verify_single_use [⟨1, "a@x.com", "123456", OTPPurpose.signin, 10, false, 0⟩]
    5 "a@x.com" "123456" OTPPurpose.signin (by decide) (by decide)

/-- C6: `create_and_send` first marks used every previously unused OTP
stored under exactly the lowercased (email, purpose) pair; afterwards
the store's only unused row for the pair is the freshly inserted code,
so at most one valid OTP per pair exists; and rows stored under a
different email or purpose are left untouched, position by position. -/
theorem create_and_send_at_most_one_valid (st : List OTP) (now ttl newId : Nat)
    (code : String) (suppressed : List String) (pr : Bool) (email : String)
    (p : OTPPurpose) :
    (∀ o ∈ OTPService.invalidate_previous st (pyLower email) p,
      o.email = (pyLower email) → o.purpose = p → o.used = true) ∧
    ((OTPService.create_and_send st now ttl newId code suppressed pr email p).snd.filter
        (pairUnused (pyLower email) p) =
      [⟨newId, (pyLower email), code, p, now + ttl, false, now⟩]) ∧
    List.Forall₂ (fun o o2 => (o.email ≠ (pyLower email) ∨ o.purpose ≠ p) → o2 = o)
      st (OTPService.invalidate_previous st (pyLower email) p) := by
  refine ⟨?_, create_and_send_filter_eq st now ttl newId code suppressed pr email p, ?_⟩
  · intro o hmem hemail hpurpose
    rcases List.mem_map.mp hmem with ⟨x, _, hfx⟩
    by_cases hc : x.email = (pyLower email) ∧ x.purpose = p ∧ x.used = false
    · rw [if_pos hc] at hfx
      subst hfx
      rfl
    · rw [if_neg hc] at hfx
      subst hfx
      by_contra hused
      exact hc ⟨hemail, hpurpose, by simpa using hused⟩
  · induction st with
    | nil => exact List.Forall₂.nil
    | cons x rest ih =>
      refine List.Forall₂.cons ?_ ih
      intro hother
      by_cases hc : x.email = (pyLower email) ∧ x.purpose = p ∧ x.used = false
      · rcases hother with h1 | h2
        · exact absurd hc.1 h1
        · exact absurd hc.2.1 h2
      · exact if_neg hc

/-- Witness for C6: creating a sign-in code for `A@x.com` over a store
holding a previous sign-in code leaves exactly the new code unused for
the pair. -/
theorem create_and_send_at_most_one_valid_witness :
    (OTPService.create_and_send [⟨1, "a@x.com", "111111", OTPPurpose.signin, 100, false, 0⟩]
        1 5 3 "333333" [] true "A@x.com" OTPPurpose.signin).snd.filter
      (pairUnused ((pyLower "A@x.com")) OTPPurpose.signin) =
      [⟨3, (pyLower "A@x.com"), "333333", OTPPurpose.signin, 6, false, 1⟩] :=
  (create_and_send_at_most_one_valid
    [⟨1, "a@x.com", "111111", OTPPurpose.signin, 100, false, 0⟩]
    1 5 3 "333333" [] true "A@x.com" OTPPurpose.signin).2.1

/-- C7 counterexample: with both the stored counter and the assertion's
counter at zero and a valid signature, authentication succeeds, even
though the reported counter is less than or equal to the stored one —
refuting the claim's universal failure. -/
theorem verify_authentication_zero_counters_succeed :
    cexAssertion.sign_count ≤ cexCred.sign_count ∧
    (PasskeyService.verify_authentication [cexCred] [cexUser] cexAssertion).fst =
      some cexUser := by
  constructor
  · decide
  · decide

/-- C7 (amended): an authentication assertion whose reported signature
counter is less than or equal to the stored counter fails — returning
`none` with the credential store unchanged, regardless of signature
validity — unless both counters are zero (authenticators without
counters, where the counter check is skipped). -/
theorem verify_authentication_replay_fails (creds : List PasskeyCredential)
    (users : List User) (a : AuthAssertion) (rid : String) (pk : PasskeyCredential)
    (hrid : pyOr a.rawId a.idField = some rid) (hne : rid ≠ "")
    (hfind : creds.find? (fun c => decide (c.credentialId = rid)) = some pk)
    (hle : a.sign_count ≤ pk.sign_count)
    (hnz : ¬(a.sign_count = 0 ∧ pk.sign_count = 0)) :
    PasskeyService.verify_authentication creds users a = (none, creds) := by
  have hresp : PasskeyService.verify_authentication_response pk.sign_count a = none := by
    rw [PasskeyService.verify_authentication_response, if_neg]
    rintro ⟨-, hlt | hzero⟩
    · omega
    · exact hnz hzero
  rw [PasskeyService.verify_authentication, hrid]
  simp only [hne, if_false, hfind, hresp]

/-- Witness for C7 (amended): a replay of counter five against a stored
counter of five fails with a valid signature and leaves the store
unchanged. -/
theorem verify_authentication_replay_fails_witness :
    PasskeyService.verify_authentication [cexCred2] [cexUser] cexAssertion2 =
      (none, [cexCred2]) :=
  verify_authentication_replay_fails [cexCred2] [cexUser] cexAssertion2 "cred1" cexCred2
    (by decide) (by decide) (by decide) (by decide) (by decide)

/-- C8: when delivery fails — the address is suppressed or the transport
reports failure — `create_and_send` returns `false`, yet the freshly
created OTP row is in the store and every other row for the lowercased
(email, purpose) pair is already marked used (only the new row is
unused for the pair). -/
theorem create_and_send_failure_not_rolled_back (st : List OTP) (now ttl newId : Nat)
    (code : String) (suppressed : List String) (pr : Bool) (email : String)
    (p : OTPPurpose)
    (hfail : is_suppressed suppressed (pyLower email) = true ∨ pr = false) :
    (OTPService.create_and_send st now ttl newId code suppressed pr email p).fst = false ∧
    (⟨newId, (pyLower email), code, p, now + ttl, false, now⟩ : OTP) ∈
      (OTPService.create_and_send st now ttl newId code suppressed pr email p).snd ∧
    ∀ o ∈ (OTPService.create_and_send st now ttl newId code suppressed pr email p).snd,
      pairUnused (pyLower email) p o = true →
      o = ⟨newId, (pyLower email), code, p, now + ttl, false, now⟩ := by
  refine ⟨?_, ?_, ?_⟩
  · show send_with_suppression_check suppressed pr (pyLower email) = false
    rcases hfail with hsup | hpr
    · rw [send_with_suppression_check, if_pos hsup]
    · rw [send_with_suppression_check, hpr]
      split <;> rfl
  · show _ ∈ OTPService.invalidate_previous st (pyLower email) p ++ [_]
    exact List.mem_append_right _ (List.mem_singleton.mpr rfl)
  · intro o hmem hpair
    have : o ∈ (OTPService.create_and_send st now ttl newId code suppressed pr
        email p).snd.filter (pairUnused (pyLower email) p) :=
      List.mem_filter.mpr ⟨hmem, hpair⟩
    rw [create_and_send_filter_eq] at this
    exact List.mem_singleton.mp this

/-- Witness for C8: the recipient is on the suppression list, the
transport would have succeeded, yet `create_and_send` reports failure
while the new code sits in the store. -/
theorem create_and_send_failure_not_rolled_back_witness :
    (OTPService.create_and_send [] 1 5 3 "333333" ["a@x.com"] true "A@x.com"
      OTPPurpose.signin).fst = false ∧
    (⟨3, (pyLower "A@x.com"), "333333", OTPPurpose.signin, 6, false, 1⟩ : OTP) ∈
      (OTPService.create_and_send [] 1 5 3 "333333" ["a@x.com"] true "A@x.com"
        OTPPurpose.signin).snd :=
  ⟨(create_and_send_failure_not_rolled_back [] 1 5 3 "333333" ["a@x.com"] true "A@x.com"
      OTPPurpose.signin (Or.inl (by decide))).1,
   (create_and_send_failure_not_rolled_back [] 1 5 3 "333333" ["a@x.com"] true "A@x.com"
      OTPPurpose.signin (Or.inl (by decide))).2.1⟩

/-- C9 (code bug evaluation): with a valid session cookie the request is
authenticated, yet `signout` receives no `session` query parameter —
the cookie is HTTP-only and the parameter carries no `Cookie()` marker —
so the session record survives and the very same token still resolves
to the user afterwards; only when the signed token is passed explicitly
as the query parameter is the record deleted. -/
theorem signout_cookie_only_keeps_session :
    get_current_user_optional macConst [aliceUser] [aliceSession] 0
        (some (create_signed_token macConst "tok9")) = Except.ok (some aliceUser) ∧
    signout macConst [aliceSession] none = Except.ok [aliceSession] ∧
    resolveSessionUser [aliceUser] [aliceSession] 0 "tok9" = some aliceUser ∧
    signout macConst [aliceSession] (some (create_signed_token macConst "tok9")) =
      Except.ok [] :=
  ⟨rfl, rfl, rfl, rfl⟩

/-- C10: OTP email matching is case-insensitive — a code created for an
email is successfully verified, before expiry, under any casing variant
of that email, because both operations lowercase their email argument. -/
theorem otp_case_insensitive (st : List OTP) (now ttl newId : Nat) (code : String)
    (suppressed : List String) (pr : Bool) (e e2 : String) (p : OTPPurpose) (now2 : Nat)
    (hcase : (pyLower e2) = (pyLower e)) (hexp : now2 < now + ttl) :
    (OTPService.verify
        (OTPService.create_and_send st now ttl newId code suppressed pr e p).snd
        now2 e2 code p).fst = true := by
  have hmem : (⟨newId, (pyLower e), code, p, now + ttl, false, now⟩ : OTP) ∈
      (OTPService.create_and_send st now ttl newId code suppressed pr e p).snd := by
    show _ ∈ OTPService.invalidate_previous st (pyLower e) p ++ [_]
    exact List.mem_append_right _ (List.mem_singleton.mpr rfl)
  have hpred : OTPService.otpMatches now2 (pyLower e2) code p
      (⟨newId, (pyLower e), code, p, now + ttl, false, now⟩ : OTP) = true := by
    simp [OTPService.otpMatches, hcase, hexp]
  have hfmem : (⟨newId, (pyLower e), code, p, now + ttl, false, now⟩ : OTP) ∈
      ((OTPService.create_and_send st now ttl newId code suppressed pr e p).snd.filter
        (OTPService.otpMatches now2 (pyLower e2) code p)) :=
    List.mem_filter.mpr ⟨hmem, hpred⟩
  cases hsel : OTPService.selectLatest
      ((OTPService.create_and_send st now ttl newId code suppressed pr e p).snd.filter
        (OTPService.otpMatches now2 (pyLower e2) code p)) with
  | none =>
    rw [selectLatest_eq_none_iff] at hsel
    rw [hsel] at hfmem
    cases hfmem
  | some o =>
    rw [OTPService.verify]
    simp only [hsel]

/-- Witness for C10: a code created for `A@x.com` verifies as
`a@X.COM`. -/
theorem otp_case_insensitive_witness :
    (OTPService.verify
        (OTPService.create_and_send [] 0 5 1 "123456" [] true "A@x.com"
          OTPPurpose.signin).snd
        1 "a@X.COM" "123456" OTPPurpose.signin).fst = true :=
  otp_case_insensitive [] 0 5 1 "123456" [] true "A@x.com" "a@X.COM"
    OTPPurpose.signin 1 (by decide) (by decide)

end StaticAuth
